import Mathlib

/-!
Verification of the SpeakUp-TechSprint backend services.

This file gives a shallow embedding, in Lean 4, of the pure computational
content of `backend/services/aptitude_service.py` and
`backend/services/gemini_client.py`, and proves properties of the embedded
functions.

Modelling conventions:
* Python dicts with optional keys become structures with `Option` fields;
  `d.get(k, v)` becomes `field.getD v`.
* Python strings are `String` (or `List Char` where index arithmetic is
  needed, via `String.data`).
* `random.shuffle` and `random.sample` are modelled by quantifying over the
  permutation they produce.
* Python `round` (round-half-to-even) is modelled on the exact rational
  `num/den`; CPython computes on an IEEE double, which agrees except on
  ties perturbed by float error, which no property here depends on.
* Side effects on arguments (mutation through aliased lists) are modelled
  by returning the post-call state of the argument alongside the return
  value.
-/

namespace SpeakUp

/-- Python `round(num / den)` for `den > 0`, on the exact rational:
round half to even. -/
def pyRoundDiv (num den : Nat) : Nat :=
  let q := num / den
  let r := num % den
  if 2 * r < den then q
  else if den < 2 * r then q + 1
  else if q % 2 = 0 then q else q + 1

/-- A question as passed (as a dict) to `submit_test`.  Each field is
`Option` because the code accesses them with `question.get(key, default)`. -/
structure SubmitQuestion where
  question : Option String := none
  options : Option (List String) := none
  correctAnswer : Option Nat := none
  explanation : Option String := none
deriving Repr, DecidableEq

/-- One entry of the `questionBreakdown` list built by `submit_test`. -/
structure Breakdown where
  questionNumber : Nat
  questionText : String
  options : List String
  correctAnswer : Nat
  userAnswer : Option Nat
  status : String
  explanation : String
deriving Repr, DecidableEq

/-- The `status` computed for one question in the loop of `submit_test`:
`user_answer is None` gives "unanswered", equality with `correct_answer`
gives "correct", otherwise "incorrect". -/
def gradeStatus (userAnswer : Option Nat) (correctAnswer : Nat) : String :=
  match userAnswer with
  | none => "unanswered"
  | some a => if a = correctAnswer then "correct" else "incorrect"

/-- The per-question loop of `submit_test` (list-format answers):
`user_answer = answers[idx] if idx < len(answers) else None`, and the
breakdown entry built from `question.get(...)` defaults. -/
def questionBreakdown (questions : List SubmitQuestion)
    (answers : List (Option Nat)) : List Breakdown :=
  questions.enum.map (fun p =>
    let idx := p.1
    let q := p.2
    let userAnswer := answers.getD idx none
    let correctAnswer := q.correctAnswer.getD 0
    { questionNumber := idx + 1
      questionText := q.question.getD ""
      options := q.options.getD []
      correctAnswer := correctAnswer
      userAnswer := userAnswer
      status := gradeStatus userAnswer correctAnswer
      explanation := q.explanation.getD "" })

/-- The band table used for the `performanceLevel` stored in the persisted
`AptitudeResult` (aptitude_service.py lines 209-216). -/
def performanceLevelPersisted (s : Nat) : String :=
  if 90 ≤ s then "Excellent"
  else if 75 ≤ s then "Good"
  else if 60 ≤ s then "Average"
  else "Needs Improvement"

/-- The band table used for the `performanceLevel` in the dict returned by
`submit_test` (aptitude_service.py lines 261-267). -/
def performanceLevelReturned (s : Nat) : String :=
  if 90 ≤ s then "Excellent"
  else if 75 ≤ s then "Very Good"
  else if 60 ≤ s then "Good"
  else if 50 ≤ s then "Average"
  else "Needs Improvement"

/-- The result of `submit_test`: the fields of the returned dict (with
`completionMetrics` flattened), plus the `performanceLevel` that was written
into the persisted `AptitudeResult`. -/
structure SubmitResult where
  score : Nat
  totalQuestions : Nat
  correctAnswers : Nat
  incorrectAnswers : Nat
  unansweredQuestions : Nat
  accuracy : Nat
  timeTaken : Nat
  questionsAnswered : Nat
  completionPercentage : Nat
  timeTakenMinutes : Nat
  isFullyCompleted : Bool
  questionBreakdown : List Breakdown
  performanceLevel : String
  persistedPerformanceLevel : String
deriving Repr, DecidableEq

/-- Embedding of `submit_test` (aptitude_service.py lines 156-268), for the
list format of `answers`.  Firestore persistence is effect-free on the
result; only the persisted `performanceLevel` is kept for comparison. -/
def submit_test (questions : List SubmitQuestion)
    (answers : List (Option Nat)) (timeTaken : Nat) : SubmitResult :=
  let breakdown := questionBreakdown questions answers
  let total := questions.length
  let correct := breakdown.countP (fun b => b.status == "correct")
  let incorrect := breakdown.countP (fun b => b.status == "incorrect")
  let unanswered := breakdown.countP (fun b => b.status == "unanswered")
  let score := if 0 < total then pyRoundDiv (correct * 100) total else 0
  let answered := total - unanswered
  let completion := if 0 < total then pyRoundDiv (answered * 100) total else 0
  { score := score
    totalQuestions := total
    correctAnswers := correct
    incorrectAnswers := incorrect
    unansweredQuestions := unanswered
    accuracy := score
    timeTaken := timeTaken
    questionsAnswered := answered
    completionPercentage := completion
    timeTakenMinutes := if 0 < timeTaken then pyRoundDiv timeTaken 60 else 0
    isFullyCompleted := unanswered == 0
    questionBreakdown := breakdown
    performanceLevel := performanceLevelReturned score
    persistedPerformanceLevel := performanceLevelPersisted score }

/-- A banded classification, stated the way the spec words it: an ordered
list of (inclusive lower bound, label) pairs, evaluated top-down, first
match wins, with a default label when no band matches. -/
def bandClassify (bands : List (Nat × String)) (dflt : String) (s : Nat) :
    String :=
  match bands with
  | [] => dflt
  | (t, lbl) :: rest => if t ≤ s then lbl else bandClassify rest dflt s

/-- The spec's band table for the returned `performanceLevel`. -/
def specReturnedBands : List (Nat × String) :=
  [(90, "Excellent"), (75, "Very Good"), (60, "Good"), (50, "Average")]

/-- The band table the persisted value actually uses, for comparison in the
refinement claim about the two tables. -/
def persistedBandsTable : List (Nat × String) :=
  [(90, "Excellent"), (75, "Good"), (60, "Average")]

lemma performanceLevelReturned_eq_bandClassify (s : Nat) :
    performanceLevelReturned s =
      bandClassify specReturnedBands "Needs Improvement" s := rfl

lemma performanceLevel_tables_agree_iff (s : Nat) :
    performanceLevelPersisted s = performanceLevelReturned s ↔
      (90 ≤ s ∨ s < 50) := by
  unfold performanceLevelPersisted performanceLevelReturned
  by_cases h90 : 90 ≤ s
  · simp [h90]
  · by_cases h75 : 75 ≤ s
    · simp [h90, h75]
      omega
    · by_cases h60 : 60 ≤ s
      · simp [h90, h75, h60]
        omega
      · by_cases h50 : 50 ≤ s
        · simp [h90, h75, h60, h50]
        · simp [h90, h75, h60, h50]
          omega

end SpeakUp

namespace SpeakUp

/-- Claim C1: in `submit_test`, the `performanceLevel` of the returned
assessment result is classified from the score percentage by the fixed,
ordered band table (inclusive lower bounds, evaluated top-down, first match
wins): 90 "Excellent", 75 "Very Good", 60 "Good", 50 "Average", default
"Needs Improvement". -/
theorem submit_test_performanceLevel_bands
    (questions : List SubmitQuestion) (answers : List (Option Nat))
    (timeTaken : Nat) :
    (submit_test questions answers timeTaken).performanceLevel =
      bandClassify specReturnedBands "Needs Improvement"
        (submit_test questions answers timeTaken).score := rfl

/-- Claim C9: `submit_test` on zero questions yields score 0 and completion
percentage 0; the divisions by `totalQuestions` are guarded by the
`totalQuestions > 0` test, so the zero-question case never divides. -/
theorem submit_test_empty_guard
    (answers : List (Option Nat)) (timeTaken : Nat) :
    (submit_test [] answers timeTaken).score = 0 ∧
      (submit_test [] answers timeTaken).completionPercentage = 0 ∧
      (submit_test [] answers timeTaken).totalQuestions = 0 := by
  constructor
  · rfl
  · constructor <;> rfl

/-- Claim C10: the `performanceLevel` persisted in the `AptitudeResult` and
the one in the dict returned by `submit_test` come from two different band
tables: they agree exactly when the score is at least 90 or below 50, they
differ at every score in [50, 90), and the persisted table is 90
"Excellent", 75 "Good", 60 "Average", default "Needs Improvement". -/
theorem submit_test_two_band_tables :
    (∀ (questions : List SubmitQuestion) (answers : List (Option Nat))
        (timeTaken : Nat),
      (submit_test questions answers timeTaken).persistedPerformanceLevel =
          (submit_test questions answers timeTaken).performanceLevel ↔
        (90 ≤ (submit_test questions answers timeTaken).score ∨
          (submit_test questions answers timeTaken).score < 50)) ∧
    (∀ s : Nat, 50 ≤ s → s < 90 →
      performanceLevelPersisted s ≠ performanceLevelReturned s) ∧
    (∀ s : Nat,
      performanceLevelPersisted s =
        bandClassify persistedBandsTable "Needs Improvement" s) := by
  refine ⟨fun questions answers timeTaken => ?_, fun s h1 h2 => ?_, fun s => rfl⟩
  · exact performanceLevel_tables_agree_iff _
  · intro hEq
    rcases (performanceLevel_tables_agree_iff s).mp hEq with h | h <;> omega

/-- Witness for `submit_test_two_band_tables`: at score 60 the persisted
and the returned labels differ. -/
theorem submit_test_two_band_tables_witness :
    performanceLevelPersisted 60 ≠ performanceLevelReturned 60 :=
  submit_test_two_band_tables.2.1 60 (by decide) (by decide)

end SpeakUp

namespace SpeakUp

/-- A runtime question record as handled by `shuffle_question_options`:
the fields it reads and writes. -/
structure Question where
  question : String
  options : List String
  correctAnswer : Nat
deriving Repr, DecidableEq

/-- The observable outcome of calling `shuffle_question_options(question)`:
the value it returns (`q_copy`) together with the state of the argument
`question` after the call.  In the Python code `q_copy = question.copy()` is
a shallow dict copy, so `q_copy['options']` and `question['options']` are
the same list object: `random.shuffle(q_copy['options'])` reorders that one
shared list, while the later assignment to `q_copy['correctAnswer']` only
touches the copied dict. -/
structure ShuffleOutcome where
  returned : Question
  inputAfter : Question
deriving Repr, DecidableEq

/-- Embedding of `shuffle_question_options` (aptitude_service.py lines
27-38).  `shuffledOptions` is the reordering that `random.shuffle` produces
(theorems quantify over permutations of the input's options).  `none`
models the `IndexError` raised when `correctAnswer` is out of range. -/
def shuffle_question_options (shuffledOptions : List String) (q : Question) :
    Option ShuffleOutcome :=
  if h : q.correctAnswer < q.options.length then
    let correct_text := q.options.get ⟨q.correctAnswer, h⟩
    some { returned := { q with options := shuffledOptions,
                                correctAnswer := shuffledOptions.indexOf correct_text }
           inputAfter := { q with options := shuffledOptions } }
  else
    none

/-- A concrete input for the aliasing bug: four options, correct answer at
index 0. -/
def aliasBugQuestion : Question :=
  { question := "What is 2 + 2?"
    options := ["A", "B", "C", "D"]
    correctAnswer := 0 }

/-- Claim C3 (code bug): `shuffle_question_options` does NOT leave the
input question unchanged.  `question.copy()` is a shallow copy, so the
options list is shared and `random.shuffle` reorders the input's options in
place.  Concretely: when the shuffle produces ["D","C","B","A"] (a
permutation of the input's options), the input question's options after the
call are ["D","C","B","A"], not its original ["A","B","C","D"]; only its
`correctAnswer` stays unchanged. -/
theorem shuffle_mutates_input_options :
    (["D", "C", "B", "A"] : List String).Perm aliasBugQuestion.options ∧
    (shuffle_question_options ["D", "C", "B", "A"] aliasBugQuestion).map
        (fun r => r.inputAfter.options) = some ["D", "C", "B", "A"] ∧
    (shuffle_question_options ["D", "C", "B", "A"] aliasBugQuestion).map
        (fun r => r.inputAfter.options) ≠ some aliasBugQuestion.options ∧
    (shuffle_question_options ["D", "C", "B", "A"] aliasBugQuestion).map
        (fun r => r.inputAfter.correctAnswer) =
      some aliasBugQuestion.correctAnswer := by
  refine ⟨by decide, rfl, by decide, rfl⟩

/-- Claim C5: when the shuffle outcome is a permutation of the input's
options, the `correctAnswer` index is in range, and the correct option's
text is unique among the options, the returned question's options are a
permutation of the input's options and the text at the recomputed
`correctAnswer` index is the text at the input's `correctAnswer` index. -/
theorem shuffle_preserves_correct_text
    (q : Question) (shuffledOptions : List String)
    (h : q.correctAnswer < q.options.length)
    (hperm : shuffledOptions.Perm q.options)
    (huniq : q.options.count (q.options.get ⟨q.correctAnswer, h⟩) = 1) :
    ∃ r, shuffle_question_options shuffledOptions q = some r ∧
      r.returned.options.Perm q.options ∧
      r.returned.correctAnswer < r.returned.options.length ∧
      r.returned.options.getD r.returned.correctAnswer "" =
        q.options.get ⟨q.correctAnswer, h⟩ := by
  refine ⟨_, by rw [shuffle_question_options, dif_pos h], hperm, ?_, ?_⟩
  · have hmem : q.options.get ⟨q.correctAnswer, h⟩ ∈ shuffledOptions :=
      hperm.mem_iff.mpr (q.options.get_mem _ _)
    exact List.indexOf_lt_length.mpr hmem
  · have hmem : q.options.get ⟨q.correctAnswer, h⟩ ∈ shuffledOptions :=
      hperm.mem_iff.mpr (q.options.get_mem _ _)
    have hlt := List.indexOf_lt_length.mpr hmem
    simp only [List.getD_eq_getElem?_getD]
    rw [List.getElem?_eq_getElem hlt]
    simp [List.getElem_indexOf]

/-- Witness for `shuffle_preserves_correct_text` at a concrete question and
a concrete permutation of its options. -/
theorem shuffle_preserves_correct_text_witness :
    ∃ r, shuffle_question_options ["B", "A"]
        { question := "q", options := ["A", "B"], correctAnswer := 0 } =
          some r ∧
      r.returned.options.Perm ["A", "B"] ∧
      r.returned.correctAnswer < r.returned.options.length ∧
      r.returned.options.getD r.returned.correctAnswer "" =
        (["A", "B"] : List String).get ⟨0, by decide⟩ :=
  shuffle_preserves_correct_text
    { question := "q", options := ["A", "B"], correctAnswer := 0 }
    ["B", "A"] (by decide) (by decide) (by decide)

end SpeakUp

namespace SpeakUp

/-- One parsed element of the JSON array handed to the item validator inside
`get_ai_powered_questions`.  `isDict` models `isinstance(q, dict)`;
`questionVal` is the value of the "question" key when present;
`optionsVal` is `some l` when the "options" key is present with a list
value `l`, and `none` when the key is absent or its value is not a list;
`correctAnswerVal` and `explanationVal` are the optional remaining keys. -/
structure Candidate where
  isDict : Bool := true
  questionVal : Option String := none
  optionsVal : Option (List String) := none
  correctAnswerVal : Option Nat := none
  explanationVal : Option String := none
deriving Repr, DecidableEq

/-- The validation test applied to each candidate (aptitude_service.py
lines 123-127): a dict, with a "question" key, and an "options" key holding
a list of length exactly 4. -/
def isValidCandidate (c : Candidate) : Bool :=
  match c.optionsVal with
  | some l => c.isDict && c.questionVal.isSome && l.length == 4
  | none => false

/-- A validated question after the in-place fix-ups of lines 128-132:
`id` set, `correctAnswer` defaulted to 0, `explanation` defaulted. -/
structure ValidQuestion where
  id : Nat
  question : String
  options : List String
  correctAnswer : Nat
  explanation : String
deriving Repr, DecidableEq

/-- The validated question built from candidate `c` at enumeration index
`i` (`q['id'] = i + 1` and the two defaulting assignments). -/
def mkValidQuestion (i : Nat) (c : Candidate) (l : List String) :
    ValidQuestion :=
  { id := i + 1
    question := c.questionVal.getD ""
    options := l
    correctAnswer := c.correctAnswerVal.getD 0
    explanation := c.explanationVal.getD "Answer explanation" }

/-- The `for i, q in enumerate(questions)` filtering loop of lines 121-136,
started at enumeration index `i`.  When the candidate passes
`isValidCandidate`, its `optionsVal` is `some l`, so `getD []` is exactly
the list held by the "options" key. -/
def validLoop (i : Nat) : List Candidate → List ValidQuestion
  | [] => []
  | c :: rest =>
    if isValidCandidate c then
      mkValidQuestion i c (c.optionsVal.getD []) :: validLoop (i + 1) rest
    else
      validLoop (i + 1) rest

/-- The validation stage of `get_ai_powered_questions` (aptitude_service.py
lines 112-143), taking the already-parsed JSON array: the empty-list check,
the per-item filter, the `< 3` hard-failure check (the function returns `[]`
with no fallback items), and the `[:3]` truncation. -/
def validate_ai_questions (questions : List Candidate) : List ValidQuestion :=
  if questions.length = 0 then []
  else
    let valid := validLoop 0 questions
    if valid.length < 3 then [] else valid.take 3

lemma validLoop_ids (cands : List Candidate) :
    ∀ i : Nat, (validLoop i cands).map (fun q => q.id) =
      ((List.enumFrom i cands).filter
        (fun p => isValidCandidate p.2)).map (fun p => p.1 + 1) := by
  induction cands with
  | nil => intro i; rfl
  | cons c rest ih =>
    intro i
    simp only [List.enumFrom, List.filter_cons]
    unfold validLoop
    by_cases hv : isValidCandidate c
    · simp [hv, ih, mkValidQuestion]
    · simp [hv, ih]

/-- A candidate with four options and a question text. -/
def okCandidate (text : String) : Candidate :=
  { isDict := true
    questionVal := some text
    optionsVal := some ["A", "B", "C", "D"]
    correctAnswerVal := some 0
    explanationVal := some "because" }

/-- A candidate that lacks the "options" key. -/
def noOptionsCandidate : Candidate :=
  { isDict := true
    questionVal := some "broken"
    optionsVal := none
    correctAnswerVal := none
    explanationVal := none }

/-- The concrete candidate array for the id-assignment counterexample:
5 candidates of which the 2nd and the 4th lack an options field. -/
def idGapCandidates : List Candidate :=
  [okCandidate "q one", noOptionsCandidate, okCandidate "q two",
   noOptionsCandidate, okCandidate "q three"]

/-- Claim C2 as stated is false: ids come from the `enumerate` index over
the original array, so invalid items DO consume ids.  For 5 candidates of
which the 2nd and the 4th lack an options field, the validator returns the
3 valid items with ids 1, 3, 5 — not 1, 2, 3. -/
theorem validator_ids_counterexample :
    (validate_ai_questions idGapCandidates).map (fun q => q.id) = [1, 3, 5] ∧
      (validate_ai_questions idGapCandidates).map (fun q => q.id) ≠
        [1, 2, 3] := by
  constructor
  · rfl
  · decide

/-- Claim C2 (amended): each valid item's id is 1 plus its 0-based position
in the original candidate array (the `enumerate` index), so invalid items do
consume ids; the id list of the validator's filtering loop is exactly the
1-based positions of the candidates that pass validation. -/
theorem validator_ids_are_enumerate_positions (cands : List Candidate) :
    (validLoop 0 cands).map (fun q => q.id) =
      ((cands.enum.filter (fun p => isValidCandidate p.2)).map
        (fun p => p.1 + 1)) :=
  validLoop_ids cands 0

/-- The concrete candidate array for the empty-question-text
counterexample: three structurally valid items whose question text is "". -/
def emptyTextCandidates : List Candidate :=
  [okCandidate "", okCandidate "", okCandidate ""]

/-- Claim C4 as stated is false: the validator only checks that the
"question" key is present (`'question' in q`), not that its text is
non-empty.  Three candidates with `question = ""` and four options each all
pass validation and are returned. -/
theorem validator_keeps_empty_question_text :
    (validate_ai_questions emptyTextCandidates).length = 3 ∧
      (validate_ai_questions emptyTextCandidates).map (fun q => q.question) =
        ["", "", ""] := by
  constructor <;> rfl

lemma isValid_parts {c : Candidate} (hv : isValidCandidate c = true) :
    c.isDict = true ∧ c.questionVal.isSome = true := by
  cases h : c.optionsVal with
  | some l =>
    simp only [isValidCandidate, h, Bool.and_eq_true] at hv
    exact ⟨hv.1.1, hv.1.2⟩
  | none =>
    simp only [isValidCandidate, h] at hv
    exact absurd hv (by decide)

lemma validLoop_mem_source (cands : List Candidate) :
    ∀ (i : Nat) (q : ValidQuestion), q ∈ validLoop i cands →
      ∃ c ∈ cands, c.isDict = true ∧ c.questionVal.isSome = true ∧
        q.question = c.questionVal.getD "" := by
  induction cands with
  | nil => intro i q hq; cases hq
  | cons c rest ih =>
    intro i q hq
    unfold validLoop at hq
    by_cases hv : isValidCandidate c
    · rw [if_pos hv] at hq
      rcases List.mem_cons.mp hq with hq | hq
      · obtain ⟨hd, hqk⟩ := isValid_parts hv
        exact ⟨c, List.mem_cons_self _ _, hd, hqk, by rw [hq]; rfl⟩
      · obtain ⟨c', hc', hprop⟩ := ih (i + 1) q hq
        exact ⟨c', List.mem_cons_of_mem _ hc', hprop⟩
    · rw [if_neg hv] at hq
      obtain ⟨c', hc', hprop⟩ := ih (i + 1) q hq
      exact ⟨c', List.mem_cons_of_mem _ hc', hprop⟩

/-- Claim C4 (amended): the validator drops every candidate whose
"question" key is absent — presence is checked, emptiness is not: every
question in the validator's output takes its (possibly empty) text from a
candidate that has the "question" key present. -/
theorem validator_output_question_from_present_key
    (cands : List Candidate) (q : ValidQuestion)
    (hq : q ∈ validate_ai_questions cands) :
    ∃ c ∈ cands, c.isDict = true ∧ c.questionVal.isSome = true ∧
      q.question = c.questionVal.getD "" := by
  unfold validate_ai_questions at hq
  by_cases h0 : cands.length = 0
  · rw [if_pos h0] at hq; cases hq
  · rw [if_neg h0] at hq
    by_cases h3 : (validLoop 0 cands).length < 3
    · rw [if_pos h3] at hq; cases hq
    · rw [if_neg h3] at hq
      exact validLoop_mem_source cands 0 q (List.take_subset 3 _ hq)

/-- Witness for `validator_output_question_from_present_key` at a concrete
candidate array and output item. -/
theorem validator_output_question_witness :
    ∃ c ∈ emptyTextCandidates, c.isDict = true ∧
      c.questionVal.isSome = true ∧
      (mkValidQuestion 0 (okCandidate "") ["A", "B", "C", "D"]).question =
        c.questionVal.getD "" :=
  validator_output_question_from_present_key emptyTextCandidates
    (mkValidQuestion 0 (okCandidate "") ["A", "B", "C", "D"]) (by decide)

/-- Claim C7: when fewer than 3 valid items remain after filtering, the
validator returns the empty list — a hard failure, with no synthetic or
fallback items substituted; otherwise it returns exactly the first 3 valid
items in validation order, truncating any extras. -/
theorem validator_hard_failure_or_first_three (cands : List Candidate) :
    ((validLoop 0 cands).length < 3 → validate_ai_questions cands = []) ∧
      (3 ≤ (validLoop 0 cands).length →
        validate_ai_questions cands = (validLoop 0 cands).take 3) := by
  constructor
  · intro h3
    unfold validate_ai_questions
    by_cases h0 : cands.length = 0
    · rw [if_pos h0]
    · rw [if_neg h0]
      simp only [if_pos h3]
  · intro h3
    unfold validate_ai_questions
    have h0 : ¬ cands.length = 0 := by
      intro h0
      rw [List.length_eq_zero.mp h0] at h3
      simp [validLoop] at h3
    rw [if_neg h0]
    simp only [if_neg (Nat.not_lt.mpr h3)]

/-- Witness for `validator_hard_failure_or_first_three`: on the empty
candidate list the validator fails hard with `[]`. -/
theorem validator_hard_failure_witness : validate_ai_questions [] = [] :=
  (validator_hard_failure_or_first_three []).1 (by decide)

end SpeakUp

namespace SpeakUp

/-- Python `s.find(c)` for a single character: index of the first
occurrence, or -1. -/
def pyFindChar (s : List Char) (c : Char) : Int :=
  match s.findIdx? (fun x => x == c) with
  | some i => (i : Int)
  | none => -1

/-- Python `s.rfind(c)` for a single character: index of the last
occurrence, or -1. -/
def pyRfindChar (s : List Char) (c : Char) : Int :=
  match s.reverse.findIdx? (fun x => x == c) with
  | some i => (s.length : Int) - 1 - (i : Int)
  | none => -1

/-- Python `s[a:b]` for `0 ≤ a ≤ b` (the only use here). -/
def pySlice (s : List Char) (a b : Int) : List Char :=
  (s.take b.toNat).drop a.toNat

/-- Left-to-right non-overlapping replacement of `pat` by `repl`, with a
step-count fuel; `fuel = s.length` always suffices because every step
consumes at least one character of `s`. -/
def replaceAll (pat repl : List Char) : Nat → List Char → List Char
  | _, [] => []
  | 0, s => s
  | fuel + 1, c :: rest =>
    if pat.isPrefixOf (c :: rest) then
      repl ++ replaceAll pat repl fuel (rest.drop (pat.length - 1))
    else
      c :: replaceAll pat repl fuel rest

/-- Python `s.replace(pat, repl)` for non-empty `pat`. -/
def pyReplace (s pat repl : List Char) : List Char :=
  replaceAll pat repl s.length s

/-- Python `s.strip()`: drop leading and trailing whitespace. -/
def pyStrip (s : List Char) : List Char :=
  ((s.dropWhile (fun c => c.isWhitespace)).reverse.dropWhile
    (fun c => c.isWhitespace)).reverse

/-- The structured-output extraction step of `get_ai_powered_questions`
(aptitude_service.py lines 95-105): find the first `[` and the last `]`;
fail (return nothing — the Python function prints an error and returns `[]`)
if `start == -1 or end <= start`; otherwise slice `content[start:end]` and
only then remove markdown code-fence markers and strip whitespace. -/
def extractJsonArray (content : List Char) : Option (List Char) :=
  let start := pyFindChar content '['
  let stop := pyRfindChar content ']' + 1
  if start = -1 ∨ stop ≤ start then none
  else
    some (pyStrip (pyReplace (pyReplace (pySlice content start stop)
      "```json".data "".data) "```".data "".data))

/-- Claim C6: the extractor slices from the first `[` to the last `]`
inclusive and only then strips code-fence markers from that slice; it fails
when no `[` exists or the last `]` does not come after the first `[`; and
concretely "noise [1,2,3] trailing" yields "[1,2,3]" while "no brackets
here" fails. -/
theorem extract_json_array_spec :
    (∀ content : List Char,
      (pyFindChar content '[' = -1 ∨
        pyRfindChar content ']' + 1 ≤ pyFindChar content '[') →
      extractJsonArray content = none) ∧
    (∀ content : List Char,
      pyFindChar content '[' ≠ -1 →
      pyFindChar content '[' < pyRfindChar content ']' + 1 →
      extractJsonArray content =
        some (pyStrip (pyReplace (pyReplace
          (pySlice content (pyFindChar content '[')
            (pyRfindChar content ']' + 1))
          "```json".data "".data) "```".data "".data))) ∧
    extractJsonArray "noise [1,2,3] trailing".data = some "[1,2,3]".data ∧
    extractJsonArray "no brackets here".data = none := by
  refine ⟨fun content h => ?_, fun content h1 h2 => ?_, ?_, ?_⟩
  · simp only [extractJsonArray]
    rw [if_pos h]
  · simp only [extractJsonArray]
    rw [if_neg ?_]
    intro h
    rcases h with h | h
    · exact h1 h
    · exact absurd h2 (not_lt.mpr h)
  · rfl
  · rfl

/-- Witness for `extract_json_array_spec`: a text with no brackets at all
fails. -/
theorem extract_json_array_witness : extractJsonArray "abc".data = none :=
  extract_json_array_spec.1 "abc".data (Or.inl (by decide))

end SpeakUp

namespace SpeakUp

/-- The outcome of one attempt of the retry loop in `generate_text`
(gemini_client.py lines 83-145): either the call raised, or it returned
with no candidates, or it returned a candidate with a finish reason and the
text extracted by `_safe_extract_text` (already stripped, so emptiness is
the Python truthiness test). -/
inductive GeminiAttempt where
  | apiError
  | noCandidates
  | ok (finishReason : Nat) (extractedText : List Char)
deriving Repr, DecidableEq

/-- The body of the `for attempt in range(max_retries)` loop of
`generate_text`, given the outcome of each successive attempt: exceptions,
empty candidate lists, safety blocks (finish reason 3), token-truncated
responses with empty extraction (finish reason 2), and empty extractions
all fall through to the next attempt; a truncated response with non-empty
text and any other response with non-empty text return it; an exhausted
list returns nothing (`None`). -/
def attemptLoop : List GeminiAttempt → Option (List Char)
  | [] => none
  | a :: rest =>
    match a with
    | .apiError => attemptLoop rest
    | .noCandidates => attemptLoop rest
    | .ok finishReason extractedText =>
      if finishReason = 3 then attemptLoop rest
      else if finishReason = 2 then
        if extractedText ≠ [] then some extractedText else attemptLoop rest
      else if extractedText ≠ [] then some extractedText
      else attemptLoop rest

/-- Embedding of `generate_text` (gemini_client.py lines 45-148): run the
retry loop over the first `maxRetries` attempt outcomes (the call sites use
the default `max_retries = 3`). -/
def generate_text (maxRetries : Nat) (attempts : List GeminiAttempt) :
    Option (List Char) :=
  attemptLoop (attempts.take maxRetries)

/-- Claim C8: a response truncated for length (finish reason 2 =
MAX_TOKENS) with non-empty extracted text on attempt 1 is returned
immediately as a partial success; whatever the outcomes of attempts 2 and 3
would have been, they are never made and the result is that partial
text. -/
theorem generate_text_partial_immediate
    (text : List Char) (later : List GeminiAttempt) (h : text ≠ []) :
    generate_text 3 (GeminiAttempt.ok 2 text :: later) = some text ∧
      generate_text 3 (GeminiAttempt.ok 2 text :: later) =
        generate_text 3 [GeminiAttempt.ok 2 text] := by
  have hcore : ∀ l : List GeminiAttempt,
      attemptLoop (GeminiAttempt.ok 2 text :: l) = some text := by
    intro l
    simp only [attemptLoop]
    simp [h]
  constructor
  · exact hcore (later.take 2)
  · rw [show generate_text 3 (GeminiAttempt.ok 2 text :: later) = some text
        from hcore (later.take 2),
      show generate_text 3 [GeminiAttempt.ok 2 text] = some text
        from hcore []]

/-- Witness for `generate_text_partial_immediate`: a truncated attempt with
text "x" followed by two attempts that would have failed returns "x". -/
theorem generate_text_partial_witness :
    generate_text 3 (GeminiAttempt.ok 2 "x".data ::
      [GeminiAttempt.apiError, GeminiAttempt.apiError]) = some "x".data :=
  (generate_text_partial_immediate "x".data
    [GeminiAttempt.apiError, GeminiAttempt.apiError] (by decide)).1

end SpeakUp
